import Mathlib

/-!
Shallow embedding of `src/HelloTriangle/HelloTriangle.cpp`, a minimal
OpenGL demo that renders a textured, rotating quad.  Pure data (vertex and
index arrays, attribute declarations) is embedded directly; the OpenGL and
GLFW calls are embedded as explicit state transformers over small records
that track exactly the ambient state the program touches (active texture
unit, per-unit 2D texture binding, per-texture parameters and image data,
window close flag).  `float` values appearing in the vertex data are exact
dyadic rationals and are embedded as `ℚ`; the time-parameterised transform
matrix is embedded over `ℝ` with `Real.cos`/`Real.sin` standing for
the `cos`/`sin` of the C library.
-/

namespace HelloTriangle

/-! ### OpenGL / GLFW numeric constants (values from the C headers) -/

def GL_TEXTURE_2D : Nat := 0x0DE1
def GL_TEXTURE_WRAP_S : Nat := 0x2802
def GL_TEXTURE_WRAP_T : Nat := 0x2803
def GL_TEXTURE_MIN_FILTER : Nat := 0x2801
def GL_TEXTURE_MAG_FILTER : Nat := 0x2800
def GL_REPEAT : Int := 0x2901
def GL_LINEAR_MIPMAP_LINEAR : Int := 0x2703
def GL_LINEAR : Int := 0x2601
def GL_RGB : Nat := 0x1907
def GL_RGBA : Nat := 0x1908
def GL_TEXTURE0 : Nat := 0x84C0
def GL_FLOAT : Nat := 0x1406

def GLFW_KEY_ESCAPE : Nat := 256
def GLFW_PRESS : Nat := 1
def GLFW_RELEASE : Nat := 0

def SCR_WIDTH : Nat := 800
def SCR_HEIGHT : Nat := 600

/-- `sizeof(float)` on the target platform. -/
def sizeofFloat : Nat := 4

/-! ### Fixed geometry data (`main`, lines 166-179)

The vertex array interleaves a 3-float position and a 2-float texture
coordinate per vertex; all literals are exact dyadic rationals. -/

/-- The `vertices` array from `main`: 4 vertices x (3 position + 2 texcoord)
floats, flattened exactly as in the source. -/
def vertices : List ℚ :=
  [ 0.5,  0.5, 0.0,   1.0, 1.0,
    0.5, -0.5, 0.0,   1.0, 0.0,
   -0.5, -0.5, 0.0,   0.0, 0.0,
   -0.5,  0.5, 0.0,   0.0, 1.0 ]

/-- The `indices` array from `main`: two triangles forming the quad. -/
def indices : List Nat := [0, 1, 3, 1, 2, 3]

/-- Number of floats per interleaved vertex record (3 position + 2 texcoord). -/
def floatsPerVertex : Nat := 5

/-- Number of vertices in the fixed vertex array. -/
def vertexCount : Nat := 4

/-- `sizeof(vertices)` in bytes, as passed to `glBufferData`. -/
def verticesByteSize : Nat := vertices.length * sizeofFloat

/-- A vertex attribute declaration as passed to `glVertexAttribPointer`:
attribute index, component count, stride in bytes, offset in bytes. -/
structure VertexAttrib where
  index : Nat
  size : Nat
  stride : Nat
  offset : Nat
deriving DecidableEq, Repr

/-- The position attribute declared in `main` (line 202):
`glVertexAttribPointer(0, 3, GL_FLOAT, GL_FALSE, 5 * sizeof(float), (void*)0)`. -/
def posAttrib : VertexAttrib :=
  { index := 0, size := 3, stride := 5 * sizeofFloat, offset := 0 }

/-- The texture-coordinate attribute declared in `main` (line 205):
`glVertexAttribPointer(1, 2, GL_FLOAT, GL_FALSE, 5 * sizeof(float), (void*)(6 * sizeof(float)))`. -/
def texAttrib : VertexAttrib :=
  { index := 1, size := 2, stride := 5 * sizeofFloat, offset := 6 * sizeofFloat }

/-- The byte offset at which the texture coordinates actually sit inside each
interleaved 5-float vertex record: after the 3 position floats. -/
def texCoordActualOffset : Nat := 3 * sizeofFloat

/-! ### OpenGL ambient texture state and `generateTexture` (lines 121-156)

The state records exactly the ambient GL state the function touches:
the active texture unit, the 2D texture bound on each unit, and, per
texture name, the parameters set on it, the image data uploaded to it and
whether mipmaps were generated for it.  `nextName` models the name that
`glGenTextures` will hand out next (GL names are positive). -/

/-- The image-level data of a `glTexImage2D` upload: internal format,
width, height, and the format of the supplied pixel data. -/
structure TexImage where
  internalFormat : Nat
  width : Int
  height : Int
  dataFormat : Nat
deriving DecidableEq, Repr

/-- The slice of ambient OpenGL state that `generateTexture` reads and
writes. -/
structure GLState where
  activeUnit : Nat
  bound2D : Nat → Nat
  texParams : Nat → Nat → Option Int
  texImage : Nat → Option TexImage
  mipmapsGenerated : Nat → Bool
  nextName : Nat

/-- A fresh GL context: unit `GL_TEXTURE0` active, nothing bound, no
parameters, images or mipmaps anywhere, first generated name is 1. -/
def initGLState : GLState :=
  { activeUnit := GL_TEXTURE0
    bound2D := fun _ => 0
    texParams := fun _ _ => none
    texImage := fun _ => none
    mipmapsGenerated := fun _ => false
    nextName := 1 }

/-- `glGenTextures(1, &texture)`: returns a fresh texture name. -/
def glGenTextures (s : GLState) : GLState × Nat :=
  ({ s with nextName := s.nextName + 1 }, s.nextName)

/-- `glActiveTexture(unit)`. -/
def glActiveTexture (unit : Nat) (s : GLState) : GLState :=
  { s with activeUnit := unit }

/-- `glBindTexture(GL_TEXTURE_2D, tex)`: binds `tex` on the active unit. -/
def glBindTexture2D (tex : Nat) (s : GLState) : GLState :=
  { s with bound2D := fun u => if u = s.activeUnit then tex else s.bound2D u }

/-- `glTexParameteri(GL_TEXTURE_2D, pname, v)`: sets a parameter on the
texture currently bound (as 2D) on the active unit. -/
def glTexParameteri (pname : Nat) (v : Int) (s : GLState) : GLState :=
  let t := s.bound2D s.activeUnit
  { s with texParams := fun n p =>
      if n = t then (if p = pname then some v else s.texParams n p)
      else s.texParams n p }

/-- `glTexImage2D(GL_TEXTURE_2D, 0, internal, w, h, 0, fmt, GL_UNSIGNED_BYTE, data)`:
uploads image data to the texture bound on the active unit. -/
def glTexImage2D (internal : Nat) (w h : Int) (fmt : Nat) (s : GLState) : GLState :=
  let t := s.bound2D s.activeUnit
  { s with texImage := fun n =>
      if n = t then some ⟨internal, w, h, fmt⟩ else s.texImage n }

/-- `glGenerateMipmap(GL_TEXTURE_2D)`: marks mipmaps generated for the
texture bound on the active unit. -/
def glGenerateMipmap (s : GLState) : GLState :=
  let t := s.bound2D s.activeUnit
  { s with mipmapsGenerated := fun n =>
      if n = t then true else s.mipmapsGenerated n }

/-- The metadata `stbi_load` reports for a successfully decoded image. -/
structure Image where
  width : Int
  height : Int
  nrChannels : Int
deriving DecidableEq, Repr

/-- Result of one `generateTexture` call: the final GL state, the generated
texture name (written through `unsigned int& texture`), the lines printed
to the console, and whether `stbi_set_flip_vertically_on_load(true)` was
called before decoding. -/
structure GenTexResult where
  state : GLState
  texture : Nat
  log : List String
  flipRequested : Bool

/-- `generateTexture(texture, textureLoc, textureNum, hasAlpha)`
(lines 121-156), with the outcome of `stbi_load` supplied as
`decoded : Option Image` (`none` models a decode failure).  Follows the
source line by line: generate and bind a texture on unit
`GL_TEXTURE0 + textureNum`, set wrap/filter parameters, optionally request
a vertical flip, then on successful decode upload the image (internal
format `GL_RGB` in both branches, data format `GL_RGBA` iff `hasAlpha`) and
generate mipmaps, on failure print `"Failed to load texture"`; finally
bind texture 0. -/
def generateTexture (s : GLState) (decoded : Option Image)
    (textureNum : Nat) (hasAlpha : Bool) : GenTexResult :=
  let (s, texture) := glGenTextures s
  let s := glActiveTexture (GL_TEXTURE0 + textureNum) s
  let s := glBindTexture2D texture s
  let s := glTexParameteri GL_TEXTURE_WRAP_S GL_REPEAT s
  let s := glTexParameteri GL_TEXTURE_WRAP_T GL_REPEAT s
  let s := glTexParameteri GL_TEXTURE_MIN_FILTER GL_LINEAR_MIPMAP_LINEAR s
  let s := glTexParameteri GL_TEXTURE_MAG_FILTER GL_LINEAR s
  let flip := hasAlpha
  match decoded with
  | some img =>
      let s :=
        if hasAlpha then
          glTexImage2D GL_RGB img.width img.height GL_RGBA s
        else
          glTexImage2D GL_RGB img.width img.height GL_RGB s
      let s := glGenerateMipmap s
      let s := glBindTexture2D 0 s
      { state := s, texture := texture, log := [], flipRequested := flip }
  | none =>
      let s := glBindTexture2D 0 s
      { state := s, texture := texture,
        log := ["Failed to load texture"], flipRequested := flip }

/-! ### GLFW window, input processing and the render loop (lines 39-117) -/

/-- The slice of a `GLFWwindow` the program observes: creation size and
title, whether the framebuffer-resize callback was installed, and the
window-should-close flag. -/
structure Window where
  width : Nat
  height : Nat
  title : String
  resizeCallbackInstalled : Bool
  shouldClose : Bool
deriving DecidableEq, Repr

/-- `glfwSetWindowShouldClose(window, b)`. -/
def glfwSetWindowShouldClose (w : Window) (b : Bool) : Window :=
  { w with shouldClose := b }

/-- The keyboard snapshot of one frame, as `glfwGetKey` reports it: for each key
code, `GLFW_PRESS` or `GLFW_RELEASE`. -/
def KeySnapshot : Type := Nat → Nat

/-- The snapshot in which no key is pressed. -/
def noKeys : KeySnapshot := fun _ => GLFW_RELEASE

/-- The snapshot in which exactly the escape key is pressed. -/
def escPressed : KeySnapshot :=
  fun k => if k = GLFW_KEY_ESCAPE then GLFW_PRESS else GLFW_RELEASE

/-- `processInput` (lines 39-43): if `glfwGetKey(window, GLFW_KEY_ESCAPE)`
returns `GLFW_PRESS`, request window close; otherwise do nothing. -/
def processInput (keys : KeySnapshot) (w : Window) : Window :=
  if keys GLFW_KEY_ESCAPE = GLFW_PRESS then glfwSetWindowShouldClose w true
  else w

/-- `initlializeGLFW` (lines 53-80), with the success of
`glfwCreateWindow` and of `gladLoadGLLoader` supplied as booleans.
Returns the window handle (`none` models `nullptr`) and the lines printed
to `std::cerr`.  On window-creation failure it logs and returns null; on
GLAD failure (the window already exists, its context is current and the
resize callback is installed) it logs and returns null; on success it
returns the 800x600 window with the resize callback installed. -/
def initlializeGLFW (windowOk gladOk : Bool) : Option Window × List String :=
  if !windowOk then
    (none, ["Failed to create GLFW window"])
  else
    let window : Window :=
      { width := SCR_WIDTH, height := SCR_HEIGHT, title := "LearnOpenGL",
        resizeCallbackInstalled := true, shouldClose := false }
    if !gladOk then
      (none, ["failed to initialize GLAD"])
    else
      (some window, [])

/-- The `while (!glfwWindowShouldClose(window))` loop of `renderLoop`
(lines 94-116), abstracted over the stream of per-frame keyboard
snapshots (one per `glfwPollEvents`); the GL calls in the body (clear, uniform
upload, draw, swap) touch no window state, so only `processInput` acts on
the window.  Returns the final window and the number of iterations of the
body that ran.  The stream is finite so the recursion is structural; an
exhausted stream models frames that never arrive. -/
def renderLoopRun : List KeySnapshot → Window → Window × Nat
  | [], w => (w, 0)
  | keys :: rest, w =>
    if w.shouldClose then (w, 0)
    else
      let w := processInput keys w
      let (w, n) := renderLoopRun rest w
      (w, n + 1)

/-! ### GPU object lifecycle trace of `main` (lines 158-220) -/

/-- The five GPU objects `main` creates. -/
inductive GpuObj
  | vertexArray
  | vertexBuffer
  | indexBuffer
  | texture
  | shaderProgram
deriving DecidableEq, Repr, Fintype

/-- Events of the lifecycle trace: creation or release of a GPU object,
and the run of the render loop. -/
inductive LifeEvent
  | create (o : GpuObj)
  | release (o : GpuObj)
  | loopRun
deriving DecidableEq, Repr

/-- The GPU-object lifecycle trace of `main`, in source order:
`Shader shader{...}` (line 163; the shader program creation inside the
`Shader` constructor is modelled from the spec, which states the shader
program is created once before the loop — `Shader.h` is not under `src/`),
`generateTexture` → `glGenTextures` (line 182), `glGenVertexArrays`
(line 186), `glGenBuffers(VBO)` (line 187), `glGenBuffers(EBO)`
(line 188), the render loop (line 212), `glDeleteVertexArrays` (line 214)
and `glDeleteBuffers(VBO)` (line 215).  No other create or delete call
occurs in `main`; in particular the index buffer, the texture and the
shader program are never released. -/
def mainLifeTrace : List LifeEvent :=
  [ .create .shaderProgram,
    .create .texture,
    .create .vertexArray,
    .create .vertexBuffer,
    .create .indexBuffer,
    .loopRun,
    .release .vertexArray,
    .release .vertexBuffer ]

/-- Events strictly before the render loop in a trace. -/
def beforeLoop (tr : List LifeEvent) : List LifeEvent :=
  tr.takeWhile (fun e => e ≠ LifeEvent.loopRun)

/-- Events strictly after the render loop in a trace. -/
def afterLoop (tr : List LifeEvent) : List LifeEvent :=
  (tr.dropWhile (fun e => e ≠ LifeEvent.loopRun)).drop 1

/-- How many times object `o` is created in trace `tr`. -/
def createCount (tr : List LifeEvent) (o : GpuObj) : Nat :=
  tr.countP (fun e => e = LifeEvent.create o)

/-- How many times object `o` is released in trace `tr`. -/
def releaseCount (tr : List LifeEvent) (o : GpuObj) : Nat :=
  tr.countP (fun e => e = LifeEvent.release o)

/-! ### The per-frame transform (renderLoop, lines 105-107)

`glm::mat4` is embedded as `Matrix (Fin 4) (Fin 4) ℝ` (entry `(i, j)` is
row `i`, column `j`; glm stores `m[col][row]`).  `glm::translate` and
`glm::rotate` are translated from the glm sources
(`glm/ext/matrix_transform.inl`): `translate(m, v)` copies `m` and sets
column 3 to `m[0]*v.x + m[1]*v.y + m[2]*v.z + m[3]`; `rotate(m, a, v)`
normalizes the axis, builds the axis-angle rotation matrix `Rotate` from
`cos a`, `sin a` and `temp = (1 - cos a) * axis`, and returns the column
combination `Result[j] = m[0]*Rotate[j][0] + m[1]*Rotate[j][1] +
m[2]*Rotate[j][2]` with `Result[3] = m[3]`. -/

/-- A `glm::vec3` over the reals. -/
structure Vec3 where
  x : ℝ
  y : ℝ
  z : ℝ

/-- 4x4 real matrices embedding `glm::mat4`. -/
abbrev Mat4 : Type := Matrix (Fin 4) (Fin 4) ℝ

/-- `glm::length(v)` for a `vec3`. -/
noncomputable def vecLength (v : Vec3) : ℝ :=
  Real.sqrt (v.x * v.x + v.y * v.y + v.z * v.z)

/-- `glm::normalize(v)` for a `vec3`. -/
noncomputable def normalize (v : Vec3) : Vec3 :=
  ⟨v.x / vecLength v, v.y / vecLength v, v.z / vecLength v⟩

/-- `glm::translate(m, v)` from `matrix_transform.inl`: the result equals
`m` except that column 3 is `m[0]*v.x + m[1]*v.y + m[2]*v.z + m[3]`. -/
noncomputable def glmTranslate (m : Mat4) (v : Vec3) : Mat4 :=
  Matrix.of fun i =>
    ![m i 0, m i 1, m i 2,
      m i 0 * v.x + m i 1 * v.y + m i 2 * v.z + m i 3]

/-- `glm::rotate(m, angle, v)` from `matrix_transform.inl`: with
`c = cos angle`, `s = sin angle`, `axis = normalize v` and
`temp = (1 - c) * axis`, entry `Rotate[j][k]` of the rotation matrix is
its row-`k`, column-`j` entry; the result column `j < 3` is
`m[0]*Rotate[j][0] + m[1]*Rotate[j][1] + m[2]*Rotate[j][2]` and column 3
is `m[3]`. -/
noncomputable def glmRotate (m : Mat4) (angle : ℝ) (v : Vec3) : Mat4 :=
  let c := Real.cos angle
  let s := Real.sin angle
  let a := normalize v
  let tx := (1 - c) * a.x
  let ty := (1 - c) * a.y
  let tz := (1 - c) * a.z
  let r00 := c + tx * a.x
  let r10 := tx * a.y + s * a.z
  let r20 := tx * a.z - s * a.y
  let r01 := ty * a.x - s * a.z
  let r11 := c + ty * a.y
  let r21 := ty * a.z + s * a.x
  let r02 := tz * a.x + s * a.y
  let r12 := tz * a.y - s * a.x
  let r22 := c + tz * a.z
  Matrix.of fun i =>
    ![m i 0 * r00 + m i 1 * r10 + m i 2 * r20,
      m i 0 * r01 + m i 1 * r11 + m i 2 * r21,
      m i 0 * r02 + m i 1 * r12 + m i 2 * r22,
      m i 3]

/-- The per-frame transform of `renderLoop` (lines 105-107) as a pure
function of the timestamp `t` (the value `glfwGetTime()` returns):
identity, then `glm::translate` by `(0.5, -0.5, 0)`, then `glm::rotate`
by `t` radians about the axis `(0, 0, 1)`. -/
noncomputable def transform (t : ℝ) : Mat4 :=
  glmRotate (glmTranslate (1 : Mat4) ⟨0.5, -0.5, 0⟩) t ⟨0, 0, 1⟩

/-- The translation matrix by `(0.5, -0.5, 0)`, written out from the
specification (not via `glmTranslate`). -/
noncomputable def translateSpec : Mat4 :=
  !![1, 0, 0, 0.5;
     0, 1, 0, -0.5;
     0, 0, 1, 0;
     0, 0, 0, 1]

/-- The Z-axis rotation matrix by `t` radians, written out from the
specification (not via `glmRotate`). -/
noncomputable def rotZSpec (t : ℝ) : Mat4 :=
  !![Real.cos t, -Real.sin t, 0, 0;
     Real.sin t, Real.cos t, 0, 0;
     0, 0, 1, 0;
     0, 0, 0, 1]

end HelloTriangle

namespace HelloTriangle

/-! ### Theorems about the fixed geometry data -/

/-- **C5.** Every entry of the fixed 6-entry index buffer is less than the
vertex count 4, and the two triangles together reference each of the 4
vertices at least once. -/
theorem indices_consistent_with_vertices :
    indices.length = 6 ∧
    indices.all (fun i => i < vertexCount) = true ∧
    (List.range vertexCount).all (fun v => indices.contains v) = true := by
  decide

/-- **C4.** The attribute declarations are NOT consistent with the interleaved
layout: both strides are 5 floats, position is at byte offset 0, and
stride x vertexCount equals the vertex buffer byte size, but the
texture-coordinate attribute is declared at byte offset 24
(`6 * sizeof(float)`) while texture coordinates actually sit at byte
offset 12 (`3 * sizeof(float)`) inside each 5-float record; reading 2
floats at offset 24 with stride 20 for the last vertex even runs past the
80-byte buffer. -/
theorem texAttrib_offset_wrong :
    posAttrib.stride = 5 * sizeofFloat ∧
    texAttrib.stride = 5 * sizeofFloat ∧
    posAttrib.offset = 0 ∧
    posAttrib.stride * vertexCount = verticesByteSize ∧
    texCoordActualOffset = 12 ∧
    texAttrib.offset = 24 ∧
    texAttrib.offset ≠ texCoordActualOffset ∧
    texAttrib.offset + (vertexCount - 1) * texAttrib.stride
      + texAttrib.size * sizeofFloat > verticesByteSize := by
  decide

/-! ### Theorems about `generateTexture` -/

/-- **C2 (counterexample).** The claim "at the end of the call the texture
object remains bound (on the selected texture unit)" is false: running
`generateTexture` on a fresh context with a failing decode, the generated
texture is name 1 but the final binding on the selected unit `GL_TEXTURE0`
is 0, because line 155 executes `glBindTexture(GL_TEXTURE_2D, 0)`
unconditionally before returning. -/
theorem generateTexture_failure_unbinds :
    (generateTexture initGLState none 0 false).texture = 1 ∧
    (generateTexture initGLState none 0 false).state.bound2D (GL_TEXTURE0 + 0) = 0 ∧
    (generateTexture initGLState none 0 false).state.bound2D (GL_TEXTURE0 + 0) ≠
      (generateTexture initGLState none 0 false).texture := by
  decide

/-- **C2 (amended).** On decode failure, `generateTexture` logs exactly
`"Failed to load texture"`, raises no exception (it returns normally), and
at the end of the call no image data has been uploaded to the generated
texture; however the texture does not remain bound: the binding on the
selected texture unit is reset to 0. -/
theorem generateTexture_failure_behavior (s : GLState) (textureNum : Nat)
    (hasAlpha : Bool) (h : s.texImage s.nextName = none) :
    (generateTexture s none textureNum hasAlpha).log = ["Failed to load texture"] ∧
    (generateTexture s none textureNum hasAlpha).state.bound2D
      (GL_TEXTURE0 + textureNum) = 0 ∧
    (generateTexture s none textureNum hasAlpha).state.texImage
      (generateTexture s none textureNum hasAlpha).texture = none := by
  refine ⟨rfl, ?_, ?_⟩ <;>
    simp [generateTexture, glGenTextures, glActiveTexture, glBindTexture2D,
      glTexParameteri, glTexImage2D, glGenerateMipmap, h]

/-- **C2 (witness).** `generateTexture_failure_behavior` at the fresh
context, texture unit 0, no alpha. -/
theorem generateTexture_failure_behavior_witness :
    (generateTexture initGLState none 0 false).log = ["Failed to load texture"] ∧
    (generateTexture initGLState none 0 false).state.bound2D (GL_TEXTURE0 + 0) = 0 ∧
    (generateTexture initGLState none 0 false).state.texImage
      (generateTexture initGLState none 0 false).texture = none :=
  generateTexture_failure_behavior initGLState 0 false rfl

/-- **C6 (counterexample).** The claim "if the alpha flag is set, the image
is ... uploaded as an RGBA 2D texture" is false: with the alpha flag set
and a successful 2x2 decode, line 142 passes internal format `GL_RGB`
(with pixel-data format `GL_RGBA`), so the texture stored on the GPU is an
RGB texture, not an RGBA one. -/
theorem generateTexture_alpha_internalFormat_rgb :
    (generateTexture initGLState (some ⟨2, 2, 4⟩) 0 true).state.texImage
      (generateTexture initGLState (some ⟨2, 2, 4⟩) 0 true).texture =
      some ⟨GL_RGB, 2, 2, GL_RGBA⟩ ∧
    GL_RGB ≠ GL_RGBA := by
  decide

/-- **C6 (amended).** On successful decode: if the alpha flag is set a
vertical flip is requested before decoding and the image is uploaded with
pixel-data format `GL_RGBA`, otherwise no flip is requested and the
pixel-data format is `GL_RGB`; in both cases the internal format of the texture
is `GL_RGB` and mipmaps are then generated (and nothing is logged). -/
theorem generateTexture_success_behavior (s : GLState) (img : Image)
    (textureNum : Nat) (hasAlpha : Bool) :
    (generateTexture s (some img) textureNum hasAlpha).flipRequested = hasAlpha ∧
    (generateTexture s (some img) textureNum hasAlpha).state.texImage
      (generateTexture s (some img) textureNum hasAlpha).texture =
      some ⟨GL_RGB, img.width, img.height,
            if hasAlpha then GL_RGBA else GL_RGB⟩ ∧
    (generateTexture s (some img) textureNum hasAlpha).state.mipmapsGenerated
      (generateTexture s (some img) textureNum hasAlpha).texture = true ∧
    (generateTexture s (some img) textureNum hasAlpha).log = [] := by
  cases hasAlpha <;>
    simp [generateTexture, glGenTextures, glActiveTexture, glBindTexture2D,
      glTexParameteri, glTexImage2D, glGenerateMipmap]

/-- **C8.** Every `generateTexture` call sets, on the generated texture,
wrap mode `GL_REPEAT` on both the S and T axes, minification filter
`GL_LINEAR_MIPMAP_LINEAR` and magnification filter `GL_LINEAR`, and it
does so whatever the decode outcome (`decoded` arbitrary), since lines
127-130 run before the decode. -/
theorem generateTexture_sets_params (s : GLState) (decoded : Option Image)
    (textureNum : Nat) (hasAlpha : Bool) :
    (generateTexture s decoded textureNum hasAlpha).state.texParams
      (generateTexture s decoded textureNum hasAlpha).texture
      GL_TEXTURE_WRAP_S = some GL_REPEAT ∧
    (generateTexture s decoded textureNum hasAlpha).state.texParams
      (generateTexture s decoded textureNum hasAlpha).texture
      GL_TEXTURE_WRAP_T = some GL_REPEAT ∧
    (generateTexture s decoded textureNum hasAlpha).state.texParams
      (generateTexture s decoded textureNum hasAlpha).texture
      GL_TEXTURE_MIN_FILTER = some GL_LINEAR_MIPMAP_LINEAR ∧
    (generateTexture s decoded textureNum hasAlpha).state.texParams
      (generateTexture s decoded textureNum hasAlpha).texture
      GL_TEXTURE_MAG_FILTER = some GL_LINEAR := by
  cases decoded <;> cases hasAlpha <;>
    simp [generateTexture, glGenTextures, glActiveTexture, glBindTexture2D,
      glTexParameteri, glTexImage2D, glGenerateMipmap,
      GL_TEXTURE_WRAP_S, GL_TEXTURE_WRAP_T, GL_TEXTURE_MIN_FILTER,
      GL_TEXTURE_MAG_FILTER]

/-! ### Theorems about initialization, input and the render loop -/

/-- **C9.** `initlializeGLFW` returns a null handle exactly when window
creation fails or the GLAD loader fails, and it logs an error message
exactly in those cases; when both succeed it returns a non-null handle to
an 800x600 window titled `"LearnOpenGL"` with the resize callback
installed and the close flag clear. -/
theorem initlializeGLFW_contract :
    (∀ windowOk gladOk : Bool,
      ((initlializeGLFW windowOk gladOk).1 = none ↔
        windowOk = false ∨ gladOk = false) ∧
      ((initlializeGLFW windowOk gladOk).2 ≠ [] ↔
        windowOk = false ∨ gladOk = false)) ∧
    (initlializeGLFW true true).1 =
      some { width := 800, height := 600, title := "LearnOpenGL",
             resizeCallbackInstalled := true, shouldClose := false } := by
  decide

/-- **C7.** `processInput`: when the snapshot reports the escape key as
pressed the close-request flag of the window becomes true; when the escape key
is not reported pressed (in particular when no key is pressed) the window
is returned unchanged, so the flag remains false if it was false. -/
theorem processInput_contract (keys : KeySnapshot) (w : Window) :
    (keys GLFW_KEY_ESCAPE = GLFW_PRESS →
      (processInput keys w).shouldClose = true) ∧
    (keys GLFW_KEY_ESCAPE ≠ GLFW_PRESS → processInput keys w = w) := by
  constructor <;> intro h <;>
    simp [processInput, glfwSetWindowShouldClose, h]

/-- A concrete open window used to instantiate the loop/input theorems. -/
def openWindow : Window :=
  { width := 800, height := 600, title := "LearnOpenGL",
    resizeCallbackInstalled := true, shouldClose := false }

/-- **C7 (witness).** `processInput_contract` instantiated: with the
escape key pressed the flag becomes true on a concrete open window, and
with no keys pressed the window is unchanged. -/
theorem processInput_contract_witness :
    (processInput escPressed openWindow).shouldClose = true ∧
    processInput noKeys openWindow = openWindow :=
  ⟨(processInput_contract escPressed openWindow).1 (by decide),
   (processInput_contract noKeys openWindow).2 (by decide)⟩

/-- **C10.** The close-request flag is monotone: `processInput` either
returns the window unchanged or returns it with the flag set to true (it
never clears the flag), and once the flag is observed true the render
loop runs zero further iterations of its body, whatever key snapshots
remain in the stream. -/
theorem closeFlag_monotone (keys : KeySnapshot) (w : Window)
    (ks : List KeySnapshot) :
    (processInput keys w = w ∨ (processInput keys w).shouldClose = true) ∧
    (w.shouldClose = true → (processInput keys w).shouldClose = true) ∧
    (w.shouldClose = true → renderLoopRun ks w = (w, 0)) := by
  refine ⟨?_, ?_, ?_⟩
  · by_cases h : keys GLFW_KEY_ESCAPE = GLFW_PRESS
    · exact Or.inr (by simp [processInput, glfwSetWindowShouldClose, h])
    · exact Or.inl (by simp [processInput, h])
  · intro h
    by_cases hk : keys GLFW_KEY_ESCAPE = GLFW_PRESS <;>
      simp [processInput, glfwSetWindowShouldClose, hk, h]
  · intro h
    cases ks with
    | nil => rfl
    | cons k rest => simp [renderLoopRun, h]

/-- A concrete window whose close flag is already set. -/
def closingWindow : Window :=
  { width := 800, height := 600, title := "LearnOpenGL",
    resizeCallbackInstalled := true, shouldClose := true }

/-- **C10 (witness).** `closeFlag_monotone` instantiated at a window whose
flag is set: `processInput` keeps it set, and the loop runs no iteration
on a nonempty input stream. -/
theorem closeFlag_monotone_witness :
    (processInput noKeys closingWindow = closingWindow ∨
      (processInput noKeys closingWindow).shouldClose = true) ∧
    (processInput noKeys closingWindow).shouldClose = true ∧
    renderLoopRun [noKeys, escPressed] closingWindow = (closingWindow, 0) :=
  ⟨(closeFlag_monotone noKeys closingWindow [noKeys, escPressed]).1,
   (closeFlag_monotone noKeys closingWindow [noKeys, escPressed]).2.1 rfl,
   (closeFlag_monotone noKeys closingWindow [noKeys, escPressed]).2.2 rfl⟩

/-! ### Theorems about the GPU-object lifecycle of `main` -/

/-- **C3 (counterexample).** The claim that every GPU object is released
exactly once after the loop is false: the index buffer (`EBO`) is created
exactly once before the loop, but `main` never releases it — its release
count in the whole trace is 0, not 1 (the same holds for the texture and
the shader program). -/
theorem indexBuffer_never_released :
    createCount (beforeLoop mainLifeTrace) GpuObj.indexBuffer = 1 ∧
    releaseCount mainLifeTrace GpuObj.indexBuffer = 0 ∧
    ¬ releaseCount (afterLoop mainLifeTrace) GpuObj.indexBuffer = 1 := by
  decide

/-- **C3 (amended).** Every one of the five GPU objects is created exactly
once, before the render loop, and none is created or released during the
loop; but only the vertex array and the vertex buffer are released (each
exactly once, after the loop): the index buffer, the texture and the
shader program are never released. -/
theorem gpuObject_lifecycle :
    (∀ o : GpuObj, createCount mainLifeTrace o = 1 ∧
      createCount (beforeLoop mainLifeTrace) o = 1) ∧
    (∀ o : GpuObj, releaseCount (beforeLoop mainLifeTrace) o = 0) ∧
    releaseCount (afterLoop mainLifeTrace) GpuObj.vertexArray = 1 ∧
    releaseCount (afterLoop mainLifeTrace) GpuObj.vertexBuffer = 1 ∧
    releaseCount mainLifeTrace GpuObj.vertexArray = 1 ∧
    releaseCount mainLifeTrace GpuObj.vertexBuffer = 1 ∧
    releaseCount mainLifeTrace GpuObj.indexBuffer = 0 ∧
    releaseCount mainLifeTrace GpuObj.texture = 0 ∧
    releaseCount mainLifeTrace GpuObj.shaderProgram = 0 := by
  decide

/-! ### Theorems about the per-frame transform -/

/-- The axis `(0, 0, 1)` passed to `glm::rotate` is already unit length,
so `glm::normalize` fixes it. -/
lemma normalize_zAxis : normalize ⟨0, 0, 1⟩ = ⟨0, 0, 1⟩ := by
  simp [normalize, vecLength]

/-- The Z-rotation by 0 radians is the identity matrix. -/
lemma rotZSpec_zero : rotZSpec 0 = (1 : Mat4) := by
  ext i j
  fin_cases i <;> fin_cases j <;>
    simp [rotZSpec, Matrix.one_apply, Matrix.vecHead, Matrix.vecTail]

/-- The Z-rotation by `π` radians, written out. -/
lemma rotZSpec_pi :
    rotZSpec Real.pi =
      !![-1, 0, 0, 0;
          0, -1, 0, 0;
          0, 0, 1, 0;
          0, 0, 0, 1] := by
  ext i j
  fin_cases i <;> fin_cases j <;>
    simp [rotZSpec, Matrix.vecHead, Matrix.vecTail]

/-- **C1.** For every timestamp `t`, the per-frame matrix of `renderLoop`
(identity, then `glm::translate` by `(0.5, -0.5, 0)`, then `glm::rotate`
by `t` radians about the Z axis) equals the translation matrix by
`(0.5, -0.5, 0)` multiplied on the right by the Z-axis rotation matrix by
`t` radians; in particular at `t = 0` it is exactly the translation (no
rotation), and at `t = π` it is the translation composed with the Z
rotation by `π`, whose matrix is `diag(-1, -1, 1, 1)` up to the rotation
block. -/
theorem transform_translate_then_rotateZ (t : ℝ) :
    transform t = translateSpec * rotZSpec t ∧
    transform 0 = translateSpec ∧
    transform Real.pi = translateSpec * rotZSpec Real.pi ∧
    rotZSpec Real.pi =
      !![-1, 0, 0, 0;
          0, -1, 0, 0;
          0, 0, 1, 0;
          0, 0, 0, 1] := by
  have hmain : ∀ u : ℝ, transform u = translateSpec * rotZSpec u := by
    intro u
    ext i j
    fin_cases i <;> fin_cases j <;>
      simp [transform, glmRotate, glmTranslate, normalize_zAxis,
        translateSpec, rotZSpec, Matrix.mul_apply, Fin.sum_univ_four,
        Matrix.one_apply, Matrix.vecHead, Matrix.vecTail]
  refine ⟨hmain t, ?_, hmain Real.pi, rotZSpec_pi⟩
  rw [hmain 0, rotZSpec_zero, mul_one]

end HelloTriangle
